import Mathlib

/-!
Shallow embedding of the `k8s-metrics-rs` repository (crates `k8s-metrics`,
`k8s-metrics-ext`, `k8s-metrics-kubeapi`, `k8s-metrics-collector`,
`k8s-metrics-server`) together with theorems settling the specification
claims about it.

Machine-level types are embedded as follows: Kubernetes API objects become
Lean structures with the same field names (Rust `Option<T>` becomes
`Option T`, `Vec<T>` becomes `List T`); Rust `Result<T, E>` becomes
`Except E T`; wall-clock instants (`metav1::Time`, produced by the impure
`Time::now()`) are threaded as an explicit `Time` parameter; `std::time::Duration`
is a count of seconds.  CPU quantities (Rust `f64`) are embedded as `ℚ`
and memory quantities (Rust `i64`) as `ℤ`, keeping the arithmetic exact.
-/

namespace K8sMetrics

/-- Wall-clock instant, standing in for `metav1::Time` (`chrono::DateTime<Utc>`).
The code only ever creates and stores these (`metav1::Time::now()`), so the
embedding keeps them abstract as an integer epoch value passed in explicitly. -/
structure Time where
  epoch : Int
deriving DecidableEq, Repr

/-- Embeds `std::time::Duration` as used by the code (`30.std_seconds()` /
`Duration::from_secs(30)`): a whole number of seconds. -/
structure Duration where
  secs : Nat
deriving DecidableEq, Repr

/-- Embeds `k8s_openapi::apimachinery::pkg::api::resource::Quantity`, a newtype
over `String` (`Quantity(pub String)`). -/
structure Quantity where
  str : String
deriving DecidableEq, Repr

/-- Embeds the fields of `metav1::ObjectMeta` that the repository reads or
writes; all remaining fields are never touched and stay at their defaults.
Missing fields default to `none`, matching Rust `..default()`. -/
structure ObjectMeta where
  name : Option String := none
  namespace_ : Option String := none
  creation_timestamp : Option Time := none
deriving DecidableEq, Repr

/-- Embeds `metav1::ListMeta`; the repository only ever uses
`ListMeta::default()`, so all fields stay `none`. -/
structure ListMeta where
  continue_ : Option String := none
  remaining_item_count : Option Int := none
  resource_version : Option String := none
  self_link : Option String := none
deriving DecidableEq, Repr

/-- Embeds `metav1::StatusDetails` (fields used by `StatusExt::not_found`,
with the rest defaulted by `..default()`). -/
structure StatusDetails where
  group : Option String := none
  kind : Option String := none
  name : Option String := none
  retry_after_seconds : Option Int := none
  uid : Option String := none
deriving DecidableEq, Repr

/-- Embeds `metav1::Status` as constructed by `StatusExt::not_found`
(src/k8s-metrics-ext/src/lib.rs). -/
structure Status where
  code : Option Int := none
  details : Option StatusDetails := none
  message : Option String := none
  metadata : ListMeta := {}
  reason : Option String := none
  status : Option String := none
deriving DecidableEq, Repr

/-- Embeds `metav1::APIResource` (fields with defaults mirror Rust
`..default()`: `group`/`version` default to `None`, `verbs` to empty). -/
structure APIResource where
  categories : Option (List String) := none
  group : Option String := none
  kind : String := ""
  name : String := ""
  namespaced : Bool := false
  short_names : Option (List String) := none
  singular_name : String := ""
  storage_version_hash : Option String := none
  verbs : List String := []
  version : Option String := none
deriving DecidableEq, Repr

/-- Embeds `metav1::APIResourceList`. -/
structure APIResourceList where
  group_version : String
  resources : List APIResource
deriving DecidableEq, Repr

/-- Embeds the static identity carried by the `k8s_openapi::Resource` trait
(associated consts `KIND`, `GROUP`, `VERSION`, `URL_PATH_SEGMENT`) plus the
scope flag; the Rust type parameter `K: Resource` becomes a plain value of
this structure. -/
structure Resource where
  kind : String
  group : String
  version : String
  url_path_segment : String
  namespaced : Bool
deriving DecidableEq, Repr

/-- Embeds `metricsv1::Usage` (src/k8s-metrics/src/metrics/v1beta1.rs). -/
structure Usage where
  cpu : Quantity
  memory : Quantity
deriving DecidableEq, Repr

/-- Embeds `metricsv1::Container` (src/k8s-metrics/src/metrics/v1beta1.rs). -/
structure Container where
  name : String
  usage : Usage
deriving DecidableEq, Repr

/-- Embeds `metricsv1::NodeMetrics` (fields as used throughout the
repository: metadata, timestamp, window, usage). -/
structure NodeMetrics where
  metadata : ObjectMeta
  timestamp : Time
  window : Duration
  usage : Usage
deriving DecidableEq, Repr

/-- Embeds `metricsv1::PodMetrics` (fields as used throughout the
repository: metadata, timestamp, window, containers). -/
structure PodMetrics where
  metadata : ObjectMeta
  timestamp : Time
  window : Duration
  containers : List Container
deriving DecidableEq, Repr

/-- Embeds `METRICS_API_GROUP` (src/k8s-metrics/src/metrics/v1beta1.rs). -/
def METRICS_API_GROUP : String := "metrics.k8s.io"

/-- Embeds `METRICS_API_VERSION` (src/k8s-metrics/src/metrics/v1beta1.rs). -/
def METRICS_API_VERSION : String := "v1beta1"

/-- Embeds `METRICS_API_GROUP_VERSION` (src/k8s-metrics/src/metrics/v1beta1.rs). -/
def METRICS_API_GROUP_VERSION : String := METRICS_API_GROUP ++ "/" ++ METRICS_API_VERSION

/-- Modelled from the spec: the `k8s_openapi::Resource` constants for
`NodeMetrics` live in `src/metrics/node.rs` of the `k8s-metrics` crate, which
is not among the provided sources.  The spec's Resource Identity (§3) and URL
table (§6), together with the discovery document hardcoded in
src/k8s-metrics-server/src/main.rs (`"name": "nodes"`, `"kind": "NodeMetrics"`,
`"namespaced": false`) and the group/version constants above, give this
identity. -/
def NodeMetrics.resource : Resource :=
  { kind := "NodeMetrics"
    group := METRICS_API_GROUP
    version := METRICS_API_VERSION
    url_path_segment := "nodes"
    namespaced := false }

/-- Modelled from the spec: the `k8s_openapi::Resource` constants for
`PodMetrics` live in `src/metrics/pod.rs` of the `k8s-metrics` crate, which is
not among the provided sources.  The spec's Resource Identity (§3) and URL
table (§6), together with the discovery document hardcoded in
src/k8s-metrics-server/src/main.rs (`"name": "pods"`, `"kind": "PodMetrics"`,
`"namespaced": true`) and the group/version constants above, give this
identity. -/
def PodMetrics.resource : Resource :=
  { kind := "PodMetrics"
    group := METRICS_API_GROUP
    version := METRICS_API_VERSION
    url_path_segment := "pods"
    namespaced := true }

/-- Embeds `StatusExt::not_found::<K>` (src/k8s-metrics-ext/src/lib.rs,
lines 227-248).  The Rust type parameter `K: Resource` becomes the explicit
argument `K : Resource`.  Note the source binds `let kind = K::URL_PATH_SEGMENT`
and uses it both in the message and in the details. -/
def Status.not_found (K : Resource) (name : String) : Status :=
  let kind := K.url_path_segment
  let code : Int := 404
  let message := kind ++ " \"" ++ name ++ "\" not found"
  let details : StatusDetails := { name := some name, kind := some kind }
  { code := some code
    details := some details
    message := some message
    metadata := {}
    reason := some "NotFound"
    status := some "Failure" }

/-- Embeds `<PodMetrics as APIResourceExt>::api_resource`
(src/k8s-metrics-ext/src/lib.rs, lines 160-170).  The `group` and `version`
assignments are commented out in the source, so they stay at their
`..default()` value `None`. -/
def PodMetrics.api_resource : APIResource :=
  { name := PodMetrics.resource.url_path_segment
    namespaced := true
    kind := PodMetrics.resource.kind
    verbs := ["get", "list"] }

/-- Embeds `<NodeMetrics as APIResourceExt>::api_resource`
(src/k8s-metrics-ext/src/lib.rs, lines 188-198).  The `group` and `version`
assignments are commented out in the source, so they stay at their
`..default()` value `None`. -/
def NodeMetrics.api_resource : APIResource :=
  { name := NodeMetrics.resource.url_path_segment
    namespaced := false
    kind := NodeMetrics.resource.kind
    verbs := ["get", "list"] }

/-- Modelled from the spec: the error type `QuantityParseError` is declared in
the `k8s-metrics` crate outside the provided sources; §4.1 and §7 of the spec
describe it as a typed error for a malformed numeric portion or an
unrecognized unit suffix. -/
inductive QuantityParseError where
  | invalidNumber : String → QuantityParseError
  | invalidSuffix : String → QuantityParseError
deriving DecidableEq, Repr

/-- Character that can belong to the numeric portion of a quantity string
(`<number><optional unit suffix>`, spec §4.1): digits, a decimal point, or a
sign. -/
def isNumChar (c : Char) : Bool :=
  c.isDigit || c = '.' || c = '-' || c = '+'

/-- Numeric portion of a quantity string: its longest prefix of numeric
characters (spec §4.1: input matches `<number><optional unit suffix>`). -/
def numericPortion (s : String) : String :=
  String.mk (s.data.takeWhile isNumChar)

/-- Unit-suffix portion of a quantity string: whatever follows the numeric
portion. -/
def unitPortion (s : String) : String :=
  String.mk (s.data.dropWhile isNumChar)

/-- Value of a list of decimal digit characters. -/
def digitsVal (l : List Char) : Nat :=
  l.foldl (fun acc c => acc * 10 + (c.toNat - '0'.toNat)) 0

/-- Nonempty all-digit character list. -/
def isDigits (l : List Char) : Bool :=
  !l.isEmpty && l.all Char.isDigit

/-- Modelled from the spec: decimal-number parsing for CPU quantities
(spec §2/§3: CPU quantities decode to fractional cores).  Accepts an optional
sign, digits, and an optional fractional part; anything else is rejected.
Returns the exact rational value (the Rust code uses `f64`). -/
def parseDecimal (s : String) : Option ℚ :=
  let (sign, rest) : ℚ × List Char :=
    match s.data with
    | '-' :: rest => (-1, rest)
    | '+' :: rest => (1, rest)
    | l => (1, l)
  match rest.splitOn '.' with
  | [intPart] =>
      if isDigits intPart then some (sign * digitsVal intPart) else none
  | [intPart, fracPart] =>
      if isDigits intPart && isDigits fracPart then
        some (sign * ((digitsVal intPart : ℚ) +
          (digitsVal fracPart : ℚ) / (10 : ℚ) ^ fracPart.length))
      else none
  | _ => none

/-- Modelled from the spec: integer parsing for memory quantities
(spec §3: memory quantities decode to a byte count, `i64`).  Accepts an
optional sign followed by digits; anything else is rejected. -/
def parseInteger (s : String) : Option ℤ :=
  let (sign, rest) : ℤ × List Char :=
    match s.data with
    | '-' :: rest => (-1, rest)
    | '+' :: rest => (1, rest)
    | l => (1, l)
  if isDigits rest then some (sign * digitsVal rest) else none

/-- Modelled from the spec: recognized CPU suffixes and their scale (spec §4.1:
none = whole cores, `m` = millicores, divide by 1000). -/
def cpuScale : String → Option ℚ
  | "" => some 1
  | "m" => some (1 / 1000)
  | _ => none

/-- Modelled from the spec: recognized memory suffixes and their scale
(spec §4.1: none = bytes, `Ki`/`Mi`/`Gi`/`Ti` = powers of 1024, decimal
`k`/`M`/`G`/`T` = powers of 1000). -/
def memScale : String → Option ℤ
  | "" => some 1
  | "Ki" => some 1024
  | "Mi" => some (1024 ^ 2)
  | "Gi" => some (1024 ^ 3)
  | "Ti" => some (1024 ^ 4)
  | "k" => some 1000
  | "M" => some (1000 ^ 2)
  | "G" => some (1000 ^ 3)
  | "T" => some (1000 ^ 4)
  | _ => none

/-- Modelled from the spec: `Quantity::to_f64`, the CPU decoding called by
`Usage::cpu` (src/k8s-metrics/src/metrics/v1beta1.rs line 30); its body lives
in the `k8s-metrics` crate outside the provided sources.  Per spec §4.1 it
fails with `QuantityParseError` when the numeric portion is not a valid number
or the suffix is unrecognized, and otherwise returns the exact scaled value. -/
def Quantity.to_f64 (q : Quantity) : Except QuantityParseError ℚ :=
  match parseDecimal (numericPortion q.str) with
  | none => .error (.invalidNumber (numericPortion q.str))
  | some n =>
    match cpuScale (unitPortion q.str) with
    | none => .error (.invalidSuffix (unitPortion q.str))
    | some sc => .ok (n * sc)

/-- Modelled from the spec: `Quantity::to_memory`, the memory decoding called
by `Usage::memory` (src/k8s-metrics/src/metrics/v1beta1.rs line 34); its body
lives in the `k8s-metrics` crate outside the provided sources.  Per spec §4.1
it fails with `QuantityParseError` when the numeric portion is not a valid
number or the suffix is unrecognized, and otherwise returns the exact scaled
byte count (never truncated or clamped). -/
def Quantity.to_memory (q : Quantity) : Except QuantityParseError ℤ :=
  match parseInteger (numericPortion q.str) with
  | none => .error (.invalidNumber (numericPortion q.str))
  | some n =>
    match memScale (unitPortion q.str) with
    | none => .error (.invalidSuffix (unitPortion q.str))
    | some sc => .ok (n * sc)

/-- Embeds `Usage::cpu` (src/k8s-metrics/src/metrics/v1beta1.rs, lines 29-31):
delegates to `self.cpu.to_f64()`.  Named after the spec's `parse_cpu`
(§4.1) because the field `Usage.cpu` already owns the plain name. -/
def Usage.parse_cpu (u : Usage) : Except QuantityParseError ℚ :=
  u.cpu.to_f64

/-- Embeds `Usage::memory` (src/k8s-metrics/src/metrics/v1beta1.rs, lines
33-35): delegates to `self.memory.to_memory()`.  Named after the spec's
`parse_memory` (§4.1) because the field `Usage.memory` already owns the plain
name. -/
def Usage.parse_memory (u : Usage) : Except QuantityParseError ℤ :=
  u.memory.to_memory

/-- Embeds `kube::Error` as far as the repository distinguishes it: the
fetch/transport failures returned by the kubelet-proxy requests, and the
`ReadEvents` wrapper that `scrape_node_metrics` puts around an exposition
parse error.  The payloads are abstract strings. -/
inductive KubeError where
  | fetch : String → KubeError
  | readEvents : String → KubeError
deriving DecidableEq, Repr

/-- Strips one trailing carriage return, as Rust `str::lines` does for a
`\r\n` line ending. -/
def stripCR (l : String) : String :=
  if l.endsWith "\r" then l.dropRight 1 else l

/-- Embeds Rust `str::lines`: split on `\n`, treating `\n` as a terminator
(no empty final line for a trailing newline), and strip the `\r` of a `\r\n`
ending; a final line without a terminator is kept as is. -/
def rustLines (s : String) : List String :=
  let parts := s.splitOn "\n"
  let terminated := parts.dropLast.map stripCR
  match parts.getLast? with
  | none => []
  | some "" => terminated
  | some last => terminated ++ [last]

/-- Embeds `prometheus_parse::Scrape` (external crate) as an opaque payload:
the repository never inspects its internals in the code under verification,
so only the raw text it was parsed from is kept. -/
structure Scrape where
  raw : String
deriving DecidableEq, Repr

/-- Embeds `kube::api::GetParams` as used here: only its default value ever
occurs. -/
structure GetParams where
  resource_version : Option String := none
deriving DecidableEq, Repr

/-- Embeds `kube::api::ListParams` as used here: only its default value ever
occurs. -/
structure ListParams where
  label_selector : Option String := none
  field_selector : Option String := none
deriving DecidableEq, Repr

/-- Embeds the state of `KubeApi` (src/k8s-metrics-kubeapi/src/lib.rs):
default get/list parameters plus a network client; the client itself is an
external capability and does not influence the pure functions proved about,
so it is not materialized here. -/
structure KubeApi where
  get_params : GetParams := {}
  list_params : ListParams := {}
deriving DecidableEq, Repr

/-- Embeds `KubeApi::scrape_node_metrics` (src/k8s-metrics-kubeapi/src/lib.rs,
lines 121-129).  The two kubelet sub-fetches are network effects; their
outcomes enter as the `Except`-valued arguments `cadvisor` (the
`get_node_cadvisor_metrics` result) and `resource` (the
`get_node_resource_metrics` result), and `Scrape::parse` of the external
`prometheus_parse` crate enters as the function argument `parse` consuming
exactly the line sequence the source hands it
(`cadvisor.lines().chain(resource.lines())`). -/
def scrape_node_metrics (cadvisor resource : Except KubeError String)
    (parse : List String → Except String Scrape) : Except KubeError Scrape := do
  let c ← cadvisor
  let r ← resource
  (parse (rustLines c ++ rustLines r)).mapError KubeError.readEvents

/-- Embeds `KubeApi::metrics_api_resource_list`
(src/k8s-metrics-kubeapi/src/lib.rs, lines 143-155). -/
def KubeApi.metrics_api_resource_list (_self : KubeApi) : APIResourceList :=
  { group_version := METRICS_API_GROUP ++ "/" ++ METRICS_API_VERSION
    resources := [NodeMetrics.api_resource, PodMetrics.api_resource] }

namespace Collector

/-- Embeds the state of `MetricsCollector`
(src/k8s-metrics-collector/src/lib.rs, lines 11-15): a `KubeApi` plus the
`scrapes: Vec<Scrape>` store. -/
structure MetricsCollector where
  kubeapi : KubeApi
  scrapes : List Scrape
deriving DecidableEq, Repr

/-- Embeds the success branch of `MetricsCollector::new`
(src/k8s-metrics-collector/src/lib.rs, lines 40-46): stores the freshly
created `KubeApi` and an empty `scrapes` vector.  The fallible creation of
the `KubeApi` itself is an external network effect, so the created value is
passed in. -/
def MetricsCollector.new (kubeapi : KubeApi) : MetricsCollector :=
  { kubeapi, scrapes := [] }

/-- Embeds `MetricsCollector::scrapes`
(src/k8s-metrics-collector/src/lib.rs, lines 173-175): `self.scrapes.last()`.
Named `latest` after the spec's read operation (§4.4) because the field
`MetricsCollector.scrapes` already owns the plain name. -/
def MetricsCollector.latest (c : MetricsCollector) : Option Scrape :=
  c.scrapes.getLast?

/-- Modelled from the spec: the store's write operation `commit` (§4.4) has no
counterpart under the provided sources — nothing ever pushes onto
`MetricsCollector::scrapes`.  The spec's design note (§9) records that the
source's store is a lock-guarded growing list, so `commit` appends the new
entry at the end of the `scrapes` vector (the position `scrapes.last()`
reads). -/
def MetricsCollector.commit (c : MetricsCollector) (entry : Scrape) : MetricsCollector :=
  { c with scrapes := c.scrapes ++ [entry] }

/-- Modelled from the spec: the Metrics Aggregator's `run_cycle` (§4.5) has no
counterpart under the provided sources; only its collaborators
(`KubeApi::list_nodes`, the per-node fetch) do.  Per the spec it lists all
nodes, independently attempts the telemetry fetch for each node, skips a node
whose fetch fails (continue-on-error), concatenates the surviving raw texts
into one buffer in node-list order, and commits the buffer to the store.  The
node list and the per-node fetch outcomes enter as arguments. -/
def MetricsCollector.run_cycle (c : MetricsCollector) (nodes : List String)
    (fetch : String → Except KubeError String) : MetricsCollector :=
  let buffer := String.join (nodes.filterMap fun n => (fetch n).toOption)
  c.commit { raw := buffer }

/-- Embeds `mock::node` (src/k8s-metrics-collector/src/lib.rs, lines 236-250);
the impure `metav1::Time::now()` enters as the `now` argument. -/
def mockNode (now : Time) (name : String) : NodeMetrics :=
  { metadata :=
      { name := some name
        creation_timestamp := some now }
    timestamp := now
    window := { secs := 30 }
    usage :=
      { cpu := { str := "100m" }
        memory := { str := "200Mi" } } }

/-- Embeds `mock::pod` (src/k8s-metrics-collector/src/lib.rs, lines 337-355);
the impure `metav1::Time::now()` enters as the `now` argument. -/
def mockPod (now : Time) (name namespace_ : String) : PodMetrics :=
  { metadata :=
      { name := some name
        namespace_ := some namespace_
        creation_timestamp := some now }
    timestamp := now
    window := { secs := 30 }
    containers :=
      [{ name := "web-server"
         usage :=
           { cpu := { str := "75m" }
             memory := { str := "128Mi" } } }] }

/-- Embeds `mock::pods` (src/k8s-metrics-collector/src/lib.rs, lines 271-318):
two demo pods whose namespace is the argument or `"default"` when `None`;
the impure `metav1::Time::now()` enters as the `now` argument. -/
def mockPods (now : Time) (namespace_ : Option String) : List PodMetrics :=
  let namespace_ := namespace_.getD "default"
  [ { metadata :=
        { name := some "demo-pod-1"
          namespace_ := some namespace_
          creation_timestamp := some now }
      timestamp := now
      window := { secs := 30 }
      containers :=
        [ { name := "app-container"
            usage :=
              { cpu := { str := "25m" }
                memory := { str := "64Mi" } } }
        , { name := "sidecar-container"
            usage :=
              { cpu := { str := "10m" }
                memory := { str := "32Mi" } } } ] }
  , { metadata :=
        { name := some "demo-pod-2"
          namespace_ := some namespace_
          creation_timestamp := some now }
      timestamp := now
      window := { secs := 30 }
      containers :=
        [ { name := "web-server"
            usage :=
              { cpu := { str := "75m" }
                memory := { str := "128Mi" } } } ] } ]

/-- Embeds `MetricsCollector::node` (src/k8s-metrics-collector/src/lib.rs,
lines 104-108): `(node != "node-5").then(|| mock::node(node.to_string()))`. -/
def MetricsCollector.node (now : Time) (node : String) : Option NodeMetrics :=
  if node ≠ "node-5" then some (mockNode now node) else none

/-- Embeds `MetricsCollector::pod` (src/k8s-metrics-collector/src/lib.rs,
lines 153-155): `(name != "xyz").then(|| mock::pod(name, namespace))`. -/
def MetricsCollector.pod (now : Time) (name namespace_ : String) : Option PodMetrics :=
  if name ≠ "xyz" then some (mockPod now name namespace_) else none

/-- Embeds `MetricsCollector::pods` (src/k8s-metrics-collector/src/lib.rs,
lines 130-132): delegates to `mock::pods(namespace)`. -/
def MetricsCollector.pods (now : Time) (namespace_ : Option String) : List PodMetrics :=
  mockPods now namespace_

end Collector

namespace Server

/-- Embeds the pod data the server-side `MetricsCollector::get_pod_metrics`
reads from the external cluster API (src/k8s-metrics-server/src/main.rs):
`pod.name_any()`, `pod.namespace()` (an `Option`), and the container names of
`pod.spec.containers` (`pod.spec` is an `Option`). -/
structure ClusterPod where
  name : String
  namespace_ : Option String := none
  spec_containers : Option (List String) := none
deriving DecidableEq, Repr

/-- Converts one listed cluster pod into the `PodMetrics` built by the body
of the `for pod in pods.items` loop of `get_pod_metrics`
(src/k8s-metrics-server/src/main.rs, lines 133-164): name and namespace from
the pod (`unwrap_or_default` turns a missing namespace into `""`), one mock
`50m`/`100Mi` usage per declared container, no containers when `pod.spec` is
`None`. -/
def podMetricsOf (now : Time) (pod : ClusterPod) : PodMetrics :=
  { metadata :=
      { name := some pod.name
        namespace_ := some (pod.namespace_.getD "")
        creation_timestamp := some now }
    timestamp := now
    window := { secs := 30 }
    containers :=
      (pod.spec_containers.getD []).map fun cn =>
        { name := cn
          usage :=
            { cpu := { str := "50m" }
              memory := { str := "100Mi" } } } }

/-- Embeds `MetricsCollector::get_pod_metrics`
(src/k8s-metrics-server/src/main.rs, lines 118-226).  The collector's state
enters as `client`: `some cluster` models a connected `kube::Client` whose
pod listing yields `cluster` (`Api::namespaced(ns)` lists the pods of
namespace `ns`; `Api::all` lists every pod — the external cluster API
contract of spec §6); `none` models demo mode, whose mock items mirror the
source verbatim.  The impure `metav1::Time::now()` enters as `now`. -/
def get_pod_metrics (now : Time) (client : Option (List ClusterPod))
    (namespace_ : Option String) : List PodMetrics :=
  match client with
  | some cluster =>
      let pods :=
        match namespace_ with
        | some ns => cluster.filter fun (p : ClusterPod) => p.namespace_ == some ns
        | none => cluster
      pods.map (podMetricsOf now)
  | none =>
      let demo_namespace := namespace_.getD "default"
      [ { metadata :=
            { name := some "demo-pod-1"
              namespace_ := some demo_namespace
              creation_timestamp := some now }
          timestamp := now
          window := { secs := 30 }
          containers :=
            [ { name := "app-container"
                usage :=
                  { cpu := { str := "25m" }
                    memory := { str := "64Mi" } } }
            , { name := "sidecar-container"
                usage :=
                  { cpu := { str := "10m" }
                    memory := { str := "32Mi" } } } ] }
      , { metadata :=
            { name := some "demo-pod-2"
              namespace_ := some demo_namespace
              creation_timestamp := some now }
          timestamp := now
          window := { secs := 30 }
          containers :=
            [ { name := "web-server"
                usage :=
                  { cpu := { str := "75m" }
                    memory := { str := "128Mi" } } } ] } ]

end Server

/-- Substring search on character lists: does `pat` occur contiguously in
`l`? -/
def listContains (l pat : List Char) : Bool :=
  match l with
  | [] => pat.isEmpty
  | _ :: rest => pat.isPrefixOf l || listContains rest pat

/-- Bool-valued substring test used to state the aggregation example of
spec §8: does `pat` occur contiguously in `s`? -/
def stringContains (s pat : String) : Bool :=
  listContains s.toList pat.toList

/-- Reading the store right after a commit sees the committed entry: the last
element of the extended scrapes vector is the entry just appended.  Shared by
the store-visibility and scrape-cycle theorems. -/
theorem commit_latest (c : Collector.MetricsCollector) (s : Scrape) :
    (c.commit s).latest = some s := by
  show (c.scrapes ++ [s]).getLast? = some s
  rw [List.getLast?_concat]

/-- Claim C1 counterexample: the claim requires the not-found message to use
the resource's kind name (`NodeMetrics`) suffixed with its non-empty API
group (`metrics.k8s.io`), but `StatusExt::not_found` builds the message from
`URL_PATH_SEGMENT`, producing `nodes "node-5" not found` with no group
anywhere. -/
theorem not_found_claim_false :
    (Status.not_found NodeMetrics.resource "node-5").message ≠
      some "NodeMetrics.metrics.k8s.io \"node-5\" not found" ∧
    NodeMetrics.resource.kind = "NodeMetrics" ∧
    NodeMetrics.resource.group = "metrics.k8s.io" ∧
    (Status.not_found NodeMetrics.resource "node-5").message =
      some "nodes \"node-5\" not found" := by
  exact ⟨by decide, rfl, rfl, rfl⟩

/-- Claim C1 (amended): for every resource identity `K` and name `n`, the one
generic function `Status.not_found` returns code 404, status `Failure`,
reason `NotFound`, the message `<url_path_segment> "<n>" not found` (built
from the URL path segment, never mentioning the API group), and details
holding exactly that name and that path segment as the kind. -/
theorem not_found_spec (K : Resource) (n : String) :
    (Status.not_found K n).code = some 404 ∧
    (Status.not_found K n).status = some "Failure" ∧
    (Status.not_found K n).reason = some "NotFound" ∧
    (Status.not_found K n).message =
      some (K.url_path_segment ++ " \"" ++ n ++ "\" not found") ∧
    (Status.not_found K n).details =
      some { name := some n, kind := some K.url_path_segment } := by
  exact ⟨rfl, rfl, rfl, rfl, rfl⟩

/-- Claim C2 counterexample: the claim requires `api_resource()` to populate
`group` and `version`, but both assignments are commented out in the source,
so both fields are `None` for both served types. -/
theorem api_resource_claim_false :
    NodeMetrics.api_resource.group = none ∧
    NodeMetrics.api_resource.version = none ∧
    PodMetrics.api_resource.group = none ∧
    PodMetrics.api_resource.version = none ∧
    NodeMetrics.api_resource.group ≠ some NodeMetrics.resource.group := by
  exact ⟨rfl, rfl, rfl, rfl, by decide⟩

/-- Claim C2 (amended): for each served metrics type, `api_resource()` returns
an `APIResource` whose name is the type's URL path segment, whose namespaced
flag matches the type's scope (true for `PodMetrics`, false for
`NodeMetrics`), whose kind is the type's kind name, whose verbs are exactly
`["get", "list"]` — and whose `group` and `version` are left unset (`None`),
not populated. -/
theorem api_resource_spec :
    NodeMetrics.api_resource.name = NodeMetrics.resource.url_path_segment ∧
    NodeMetrics.api_resource.namespaced = false ∧
    NodeMetrics.api_resource.kind = NodeMetrics.resource.kind ∧
    NodeMetrics.api_resource.verbs = ["get", "list"] ∧
    NodeMetrics.api_resource.group = none ∧
    NodeMetrics.api_resource.version = none ∧
    PodMetrics.api_resource.name = PodMetrics.resource.url_path_segment ∧
    PodMetrics.api_resource.namespaced = true ∧
    PodMetrics.api_resource.kind = PodMetrics.resource.kind ∧
    PodMetrics.api_resource.verbs = ["get", "list"] ∧
    PodMetrics.api_resource.group = none ∧
    PodMetrics.api_resource.version = none := by
  exact ⟨rfl, rfl, rfl, rfl, rfl, rfl, rfl, rfl, rfl, rfl, rfl, rfl⟩

/-- Claim C3: `scrape_node_metrics` propagates a failure of either sub-fetch
(returning that error, never a partial result), and when both sub-fetches
succeed the exposition parser receives exactly the cAdvisor payload's lines
followed by the resource-metrics payload's lines, in that order. -/
theorem scrape_node_metrics_spec (parse : List String → Except String Scrape)
    (c r : String) (e : KubeError) (res : Except KubeError String) :
    scrape_node_metrics (.error e) res parse = .error e ∧
    scrape_node_metrics (.ok c) (.error e) parse = .error e ∧
    scrape_node_metrics (.ok c) (.ok r) parse =
      (parse (rustLines c ++ rustLines r)).mapError KubeError.readEvents := by
  exact ⟨rfl, rfl, rfl⟩

/-- Claim C4: the scrape store read (`MetricsCollector::scrapes`, the spec's
`latest()`) returns `None` on a freshly constructed collector, and after any
commit it returns the entry just committed. -/
theorem store_latest_spec (k : KubeApi) (c : Collector.MetricsCollector)
    (s : Scrape) :
    (Collector.MetricsCollector.new k).latest = none ∧
    (c.commit s).latest = some s := by
  exact ⟨rfl, commit_latest c s⟩

/-- Claim C5: a scrape cycle commits the concatenation, in node-list order, of
the raw texts of exactly the nodes whose fetch succeeded, and never raises an
error; in particular, with three nodes where node 2's fetch fails, the
committed text contains node 1 and node 3 data and excludes node 2. -/
theorem run_cycle_spec (c : Collector.MetricsCollector) (nodes : List String)
    (fetch : String → Except KubeError String) :
    (c.run_cycle nodes fetch).latest =
      some { raw := String.join (nodes.filterMap fun n => (fetch n).toOption) } ∧
    (c.run_cycle ["node-1", "node-2", "node-3"]
        (fun n => if n = "node-2" then .error (.fetch "unreachable")
          else .ok ("metric_" ++ n ++ " 1\n"))).latest =
      some { raw := "metric_node-1 1\nmetric_node-3 1\n" } ∧
    stringContains "metric_node-1 1\nmetric_node-3 1\n" "node-1" = true ∧
    stringContains "metric_node-1 1\nmetric_node-3 1\n" "node-3" = true ∧
    stringContains "metric_node-1 1\nmetric_node-3 1\n" "node-2" = false := by
  exact ⟨commit_latest c _, commit_latest c _, by decide, by decide, by decide⟩

/-- Claim C6: quantity parsing is total and typed — whenever the numeric
portion of the string is not a valid number or the unit suffix is
unrecognized, `Usage::cpu` / `Usage::memory` return a `QuantityParseError`,
and on success they return the exactly scaled value (no truncation or
clamping). -/
theorem quantity_parse_spec (u : Usage) :
    ((parseDecimal (numericPortion u.cpu.str) = none ∨
        cpuScale (unitPortion u.cpu.str) = none) →
      ∃ e, u.parse_cpu = .error e) ∧
    (∀ n sc, parseDecimal (numericPortion u.cpu.str) = some n →
      cpuScale (unitPortion u.cpu.str) = some sc →
      u.parse_cpu = .ok (n * sc)) ∧
    ((parseInteger (numericPortion u.memory.str) = none ∨
        memScale (unitPortion u.memory.str) = none) →
      ∃ e, u.parse_memory = .error e) ∧
    (∀ n sc, parseInteger (numericPortion u.memory.str) = some n →
      memScale (unitPortion u.memory.str) = some sc →
      u.parse_memory = .ok (n * sc)) := by
  refine ⟨?_, ?_, ?_, ?_⟩
  · intro h
    rcases h1 : parseDecimal (numericPortion u.cpu.str) with _ | n
    · exact ⟨.invalidNumber (numericPortion u.cpu.str),
        by simp [Usage.parse_cpu, Quantity.to_f64, h1]⟩
    · rcases h2 : cpuScale (unitPortion u.cpu.str) with _ | sc
      · exact ⟨.invalidSuffix (unitPortion u.cpu.str),
          by simp [Usage.parse_cpu, Quantity.to_f64, h1, h2]⟩
      · rcases h with h | h
        · exact absurd (h1.symm.trans h) (by simp)
        · exact absurd (h2.symm.trans h) (by simp)
  · intro n sc h1 h2
    simp [Usage.parse_cpu, Quantity.to_f64, h1, h2]
  · intro h
    rcases h1 : parseInteger (numericPortion u.memory.str) with _ | n
    · exact ⟨.invalidNumber (numericPortion u.memory.str),
        by simp [Usage.parse_memory, Quantity.to_memory, h1]⟩
    · rcases h2 : memScale (unitPortion u.memory.str) with _ | sc
      · exact ⟨.invalidSuffix (unitPortion u.memory.str),
          by simp [Usage.parse_memory, Quantity.to_memory, h1, h2]⟩
      · rcases h with h | h
        · exact absurd (h1.symm.trans h) (by simp)
        · exact absurd (h2.symm.trans h) (by simp)
  · intro n sc h1 h2
    simp [Usage.parse_memory, Quantity.to_memory, h1, h2]

/-- Witness for the quantity-parsing theorem: `150m` CPU decodes exactly to
`3/20` of a core, `512Mi` memory decodes exactly to `536870912` bytes, and
the unrecognized suffix `x` yields a typed parse error. -/
theorem quantity_parse_spec_witness :
    Usage.parse_cpu { cpu := { str := "150m" }, memory := { str := "512Mi" } } =
      .ok (3 / 20) ∧
    Usage.parse_memory { cpu := { str := "150m" }, memory := { str := "512Mi" } } =
      .ok 536870912 ∧
    (∃ e, Usage.parse_cpu { cpu := { str := "1x" }, memory := { str := "0" } } =
      .error e) := by
  have h := quantity_parse_spec { cpu := { str := "150m" }, memory := { str := "512Mi" } }
  have hbad := quantity_parse_spec { cpu := { str := "1x" }, memory := { str := "0" } }
  refine ⟨?_, ?_, hbad.1 (Or.inr (by decide))⟩
  · have h2 := h.2.1 (1 * ((digitsVal ['1', '5', '0'] : ℕ) : ℚ)) (1 / 1000) rfl rfl
    have hd : (digitsVal ['1', '5', '0'] : ℕ) = 150 := by decide
    rw [h2, hd]
    norm_num
  · have h2 := h.2.2.2 512 1048576 (by decide) (by decide)
    have h3 : (512 : ℤ) * 1048576 = 536870912 := by norm_num
    rw [h2, h3]

/-- Claim C7: the discovery document builder is deterministic — any two
`KubeApi` states produce the same `APIResourceList` — with group version
`metrics.k8s.io/v1beta1` and the resources in exactly the supplied order,
`NodeMetrics` then `PodMetrics`. -/
theorem metrics_api_resource_list_spec (a b : KubeApi) :
    a.metrics_api_resource_list = b.metrics_api_resource_list ∧
    a.metrics_api_resource_list.group_version = "metrics.k8s.io/v1beta1" ∧
    a.metrics_api_resource_list.resources =
      [NodeMetrics.api_resource, PodMetrics.api_resource] := by
  exact ⟨rfl, rfl, rfl⟩

/-- Claim C8 counterexample: in demo mode (no cluster client) the pod listing
with no namespace — `get_pod_metrics(None)`, and likewise the collector's
`pods(None)` — returns a non-empty list every element of which carries the
single namespace `"default"`, i.e. a list restricted to the default
namespace. -/
theorem get_pod_metrics_claim_false :
    (Server.get_pod_metrics { epoch := 0 } none none).length = 2 ∧
    ((Server.get_pod_metrics { epoch := 0 } none none).all
      fun p => p.metadata.namespace_ == some "default") = true ∧
    (Collector.MetricsCollector.pods { epoch := 0 } none).length = 2 ∧
    ((Collector.MetricsCollector.pods { epoch := 0 } none).all
      fun p => p.metadata.namespace_ == some "default") = true := by
  exact ⟨rfl, by decide, rfl, by decide⟩

/-- Claim C8 (amended): with a connected client, `get_pod_metrics(None)`
lists the pods of every namespace — one `PodMetrics` per cluster pod, each
keeping its own pod's name and namespace, with no namespace filter — while a
namespaced request selects exactly the pods of that namespace; in demo mode
(and in the collector's mock-backed `pods(None)`) the returned items all
carry the `"default"` namespace. -/
theorem get_pod_metrics_spec (now : Time) (cluster : List Server.ClusterPod)
    (ns : String) :
    (Server.get_pod_metrics now (some cluster) none).map
        (fun p => p.metadata.name) =
      cluster.map (fun pod => some pod.name) ∧
    (Server.get_pod_metrics now (some cluster) none).map
        (fun p => p.metadata.namespace_) =
      cluster.map (fun pod => some (pod.namespace_.getD "")) ∧
    Server.get_pod_metrics now (some cluster) (some ns) =
      (cluster.filter fun p => p.namespace_ == some ns).map
        (Server.podMetricsOf now) ∧
    ((Server.get_pod_metrics now none none).all
      fun p => p.metadata.namespace_ == some "default") = true := by
  refine ⟨?_, ?_, rfl, rfl⟩
  · show (cluster.map (Server.podMetricsOf now)).map (fun p => p.metadata.name) = _
    rw [List.map_map]
    rfl
  · show (cluster.map (Server.podMetricsOf now)).map
        (fun p => p.metadata.namespace_) = _
    rw [List.map_map]
    rfl

/-- Claim C10: `MetricsCollector::node(n)` is `Some` exactly when `n` is not
the literal `"node-5"`, `MetricsCollector::pod(p, ns)` is `Some` exactly when
`p` is not the literal `"xyz"`, and any returned metrics carry the requested
name (and namespace, for pods) in their metadata. -/
theorem node_pod_lookup_spec (now : Time) (n p ns : String) :
    ((Collector.MetricsCollector.node now n).isSome ↔ n ≠ "node-5") ∧
    (∀ m, Collector.MetricsCollector.node now n = some m →
      m.metadata.name = some n) ∧
    ((Collector.MetricsCollector.pod now p ns).isSome ↔ p ≠ "xyz") ∧
    (∀ m, Collector.MetricsCollector.pod now p ns = some m →
      m.metadata.name = some p ∧ m.metadata.namespace_ = some ns) := by
  refine ⟨?_, ?_, ?_, ?_⟩
  · by_cases h : n = "node-5" <;> simp [Collector.MetricsCollector.node, h]
  · intro m hm
    simp only [Collector.MetricsCollector.node] at hm
    split at hm
    · injection hm with h2
      rw [← h2]
      rfl
    · exact Option.noConfusion hm
  · by_cases h : p = "xyz" <;> simp [Collector.MetricsCollector.pod, h]
  · intro m hm
    simp only [Collector.MetricsCollector.pod] at hm
    split at hm
    · injection hm with h2
      rw [← h2]
      exact ⟨rfl, rfl⟩
    · exact Option.noConfusion hm

/-- Witness for the lookup theorem: `node-1` is found (with its name echoed
back), `node-5` is not; pod `my-pod` in `default` is found (name and
namespace echoed back), pod `xyz` is not. -/
theorem node_pod_lookup_spec_witness :
    (Collector.MetricsCollector.node { epoch := 0 } "node-1").isSome = true ∧
    Collector.MetricsCollector.node { epoch := 0 } "node-5" = none ∧
    (Collector.mockNode { epoch := 0 } "node-1").metadata.name = some "node-1" ∧
    Collector.MetricsCollector.pod { epoch := 0 } "xyz" "default" = none ∧
    (Collector.mockPod { epoch := 0 } "my-pod" "default").metadata.name =
      some "my-pod" ∧
    (Collector.mockPod { epoch := 0 } "my-pod" "default").metadata.namespace_ =
      some "default" := by
  have h := node_pod_lookup_spec { epoch := 0 } "node-1" "my-pod" "default"
  have h5 := node_pod_lookup_spec { epoch := 0 } "node-5" "xyz" "default"
  refine ⟨h.1.mpr (by decide), ?_, ?_, ?_, ?_, ?_⟩
  · have h0 : ¬ (Collector.MetricsCollector.node { epoch := 0 } "node-5").isSome :=
      fun hs => (h5.1.mp hs) rfl
    exact Option.not_isSome_iff_eq_none.mp h0
  · exact h.2.1 (Collector.mockNode { epoch := 0 } "node-1") (by decide)
  · have h0 : ¬ (Collector.MetricsCollector.pod { epoch := 0 } "xyz" "default").isSome :=
      fun hs => (h5.2.2.1.mp hs) rfl
    exact Option.not_isSome_iff_eq_none.mp h0
  · exact (h.2.2.2 (Collector.mockPod { epoch := 0 } "my-pod" "default") (by decide)).1
  · exact (h.2.2.2 (Collector.mockPod { epoch := 0 } "my-pod" "default") (by decide)).2

end K8sMetrics

